import Mathlib

/-
Verification development for the DVLA-to-vehicle-icon cross-referencing and
scoring pipeline: a shallow embedding of the two scripts
scripts/crossref_dvla_vehicle_icons.py and
scripts/build_dvla_vehicle_icon_lookup.py, together with theorems about the
embedded definitions.

Modelling conventions:
- Python floats are modelled by exact rationals (Rat).  All score weights and
  thresholds in the source are short decimal literals, so the rational model
  agrees with the float computation on every comparison the scripts make.
- Python strings are Lean Strings.  The source text is ASCII throughout
  (regexes use the class [a-z0-9]); Char.toLower / Char.isDigit /
  Char.isAlphanum model Python's str.lower / str.isdigit / str.isalnum on the
  ASCII inputs these scripts handle.
- Python dicts (which iterate in insertion order) are modelled by association
  lists that update in place and append new keys at the end.
-/

attribute [local semireducible] Rat.mul Rat.add Rat.sub Rat.inv Rat.ofScientific

namespace Crossref

/-- Characters matched by the source's token regex [a-z0-9] (after
lowercasing). -/
def isTokChar (c : Char) : Bool :=
  ('a' ≤ c && c ≤ 'z') || ('0' ≤ c && c ≤ '9')

/-- Splits a character list into the maximal runs satisfying p, dropping
separator characters.  cur accumulates the current run in reverse. -/
def splitRunsAux (p : Char → Bool) : List Char → List Char → List String
  | [], cur => if cur.isEmpty then [] else [String.mk cur.reverse]
  | c :: cs, cur =>
    if p c then splitRunsAux p cs (c :: cur)
    else if cur.isEmpty then splitRunsAux p cs []
    else String.mk cur.reverse :: splitRunsAux p cs []

/-- Embeds tokenize: lowercase, then take the maximal runs of [a-z0-9].
The source first applies normalize_space, which only rewrites whitespace;
since whitespace is never a token character this cannot change the runs, so
the embedding composes lowering directly with run splitting. -/
def tokenize (text : String) : List String :=
  splitRunsAux isTokChar (text.toList.map Char.toLower) []

/-- Embeds normalize_space: strip and collapse internal whitespace runs to a
single space (equivalently, split on whitespace and rejoin with spaces). -/
def normalize_space (text : String) : String :=
  String.intercalate " " (splitRunsAux (fun c => !c.isWhitespace) text.toList [])

/-- Value of a nonnegative decimal-digit character list, most significant
digit first. -/
def natFromDigits (cs : List Char) : Nat :=
  cs.foldl (fun acc c => acc * 10 + (c.toNat - '0'.toNat)) 0

/-- Embeds str.lower for the ASCII strings these scripts handle. -/
def lowerStr (s : String) : String :=
  String.mk (s.toList.map Char.toLower)

/-- Embeds str.strip (drop leading and trailing whitespace). -/
def trimStr (s : String) : String :=
  String.mk (((s.toList.dropWhile Char.isWhitespace).reverse.dropWhile Char.isWhitespace).reverse)

/-- Embeds str.startswith. -/
def startsWithStr (s pre : String) : Bool :=
  pre.toList.isPrefixOf s.toList

/-- Embeds str.isdigit combined with int(): the value of a nonempty all-digit
string, none otherwise. -/
def digitsValue? (t : String) : Option Nat :=
  if !t.toList.isEmpty && t.toList.all Char.isDigit then some (natFromDigits t.toList)
  else none

/-- The MAKE_ALIAS table of crossref_dvla_vehicle_icons.py. -/
def MAKE_ALIAS : List (String × String) :=
  [("mercedes benz", "mercedes"),
   ("mercedes-benz", "mercedes"),
   ("mercedes amg", "mercedes"),
   ("amg mercedes", "mercedes"),
   ("alfa romeo", "alfa romeo"),
   ("land rover", "land rover"),
   ("range rover", "land rover"),
   ("aston martin", "aston martin"),
   ("rolls royce", "rolls royce"),
   ("vauxhall", "vauxhall"),
   ("vw", "volkswagen")]

/-- Dictionary lookup in an association-list alias table. -/
def aliasLookup (table : List (String × String)) (k : String) : Option String :=
  (table.find? (fun p => p.1 == k)).map Prod.snd

/-- Embeds canonical_make: tokenize, try the full joined token string and the
first-two-token string against MAKE_ALIAS, fall back to the joined string. -/
def canonical_make (text : String) : String :=
  let toks := tokenize text
  if toks.isEmpty then ""
  else
    let joined := String.intercalate " " toks
    match aliasLookup MAKE_ALIAS joined with
    | some v => v
    | none =>
      if 2 ≤ toks.length then
        match aliasLookup MAKE_ALIAS (String.intercalate " " (toks.take 2)) with
        | some v => v
        | none => joined
      else joined

/-- Parses the plain decimal forms accepted by Python's float() that occur in
this pipeline's data: an optional sign, then digits with at most one decimal
point (at least one digit overall).  Exotic float() forms (exponents,
inf/nan, underscores) do not occur in the census or crossref CSV cells and
are not modelled; on them the embedding returns none, as float() raising
ValueError does. -/
def parseDecimal? (s : String) : Option Rat :=
  let cs := s.toList
  let signRest : Int × List Char :=
    match cs with
    | '-' :: r => (-1, r)
    | '+' :: r => (1, r)
    | r => (1, r)
  let sign := signRest.1
  let rest := signRest.2
  let intPart := rest.takeWhile Char.isDigit
  let rest2 := rest.dropWhile Char.isDigit
  match rest2 with
  | [] =>
    if intPart.isEmpty then none
    else some ((sign : Rat) * (natFromDigits intPart : Rat))
  | '.' :: frac =>
    if frac.all Char.isDigit && !(intPart.isEmpty && frac.isEmpty) then
      some ((sign : Rat) *
        ((natFromDigits intPart : Rat) + (natFromDigits frac : Rat) / (10 : Rat) ^ frac.length))
    else none
  | _ => none

/-- Truncation toward zero, as Python's int(float(...)) does. -/
def ratTruncToInt (q : Rat) : Int :=
  q.num.tdiv (q.den : Int)

/-- Embeds parse_int_like: strip; empty or bracketed cells parse to 0;
otherwise int(float(s)) with any parse failure coerced to 0. -/
def parse_int_like (text : String) : Int :=
  let s := trimStr text
  if s.toList.isEmpty || startsWithStr s "[" then 0
  else
    match parseDecimal? s with
    | some q => ratTruncToInt q
    | none => 0

/-- Embeds the per-token test in year_from_key: a 4-character all-digit token
whose value lies in [1900, 2030], returned as its integer value. -/
def year_token_value (t : String) : Option Int :=
  if t.length = 4 then
    match digitsValue? t with
    | some n => if 1900 ≤ n && n ≤ 2030 then some (n : Int) else none
    | none => none
  else none

/-- Embeds year_from_key: the last plausible 4-digit year token if any;
otherwise the trailing token, if exactly 2 digits, mapped by the 70-pivot
rule; otherwise none. -/
def year_from_key (key : String) : Option Int :=
  let toks := tokenize key
  if toks.isEmpty then none
  else
    match (toks.filterMap year_token_value).getLast? with
    | some y => some y
    | none =>
      match toks.getLast? with
      | some last =>
        if last.length = 2 then
          match digitsValue? last with
          | some y => some (if 70 ≤ y then (1900 + y : Int) else (2000 + y : Int))
          | none => none
        else none
      | none => none

/-- Restates year_from_key in the spec's phrasing, for comparison with the
embedded source definition: among the tokens that are 4-digit years in range
[1900, 2030] pick the last; else apply the 2-digit pivot rule to the trailing
token; else none. -/
def year_from_key_as_specified (key : String) : Option Int :=
  let toks := tokenize key
  match ((toks.filter (fun t => (year_token_value t).isSome)).getLast?).bind year_token_value with
  | some y => some y
  | none =>
    match toks.getLast? with
    | some last =>
      if last.length = 2 then
        match digitsValue? last with
        | some y => some (if 70 ≤ y then (1900 + y : Int) else (2000 + y : Int))
        | none => none
      else none
    | none => none

/-- Embeds overlap_score: |set(query) ∩ set(target)| / max(1, |set(query)|),
with empty inputs scoring 0. -/
def overlap_score (query target : List String) : Rat :=
  if query.isEmpty || target.isEmpty then 0
  else
    let q := query.eraseDups
    let inter := q.filter (fun t => target.contains t)
    (inter.length : Rat) / (max 1 q.length : Rat)

/-- The RACE_TOKENS set of the source. -/
def RACE_TOKENS : List String :=
  ["race", "racing", "rally", "touring", "gt3", "gt4", "gr3", "gr4",
   "formula", "nascar", "lm", "lemans", "vision", "concept", "prototype",
   "drift", "supergt", "jgtc", "pikes", "f1"]

/-- The CLASS_STOPWORDS set of the source. -/
def CLASS_STOPWORDS : List String :=
  ["and", "the", "auto", "automatic", "manual", "diesel", "petrol", "hybrid",
   "ev", "electric", "se", "sel", "sport", "line", "premium", "amg",
   "edition", "isg", "hev", "phev", "awd", "fwd", "rwd", "cdi", "tsi",
   "tdi", "d", "t", "s"]

/-- Embeds looks_race_or_special: true when the token set meets RACE_TOKENS
or some token is gr followed by a nonempty digit string. -/
def looks_race_or_special (tokens : List String) : Bool :=
  tokens.any (fun t => RACE_TOKENS.contains t) ||
  tokens.any (fun tok =>
    tok.startsWith "gr" && !(tok.drop 2).isEmpty && (tok.drop 2).toList.all Char.isDigit)

/-- First-occurrence deduplication (the seen-set loop of
extract_family_tokens); seen holds the tokens already emitted. -/
def dedupFirstAux (seen : List String) : List String → List String
  | [] => []
  | t :: ts =>
    if t ∈ seen then dedupFirstAux seen ts
    else t :: dedupFirstAux (t :: seen) ts

/-- First-occurrence deduplication of a token list. -/
def dedup_first (l : List String) : List String :=
  dedupFirstAux [] l

/-- Embeds extract_family_tokens: tokenize "make genmodel model", drop tokens
of the canonicalized make and stopwords and single characters, dedup keeping
first occurrences, truncate to 6. -/
def extract_family_tokens (make genmodel model : String) : List String :=
  let text := make ++ " " ++ genmodel ++ " " ++ model
  let toks := tokenize text
  let make_toks := tokenize (canonical_make make)
  let out := toks.filter (fun t =>
    !decide (t ∈ make_toks) && !decide (t ∈ CLASS_STOPWORDS) && decide (1 < t.length))
  (dedup_first out).take 6

/-- The coverage thresholds of crossref_dvla_vehicle_icons.py. -/
def MISSING_THRESHOLD : Rat := 0.18

/-- Embeds WEAK_THRESHOLD. -/
def WEAK_THRESHOLD : Rat := 0.42

/-- Embeds the IconEntry dataclass.  year is Optional[int] as in the source
(the loader leaves it None when neither the specs year nor the catalog key
yields one). -/
structure IconEntry where
  icon_file : String
  icon_path : String
  key : String
  label : String
  make_canonical : String
  make_tokens : List String
  model_tokens : List String
  year : Option Int
  family_tokens : List String
  race_like : Bool
deriving Repr, DecidableEq

/-- Embeds the per-variant dict produced by iter_dvla_variants, restricted to
the fields score_variant_to_icon reads (year is already the parsed int, 0 for
unknown). -/
structure Variant where
  make : String
  genmodel : String
  model : String
  year : Int
deriving Repr, DecidableEq

/-- The make sub-score of score_variant_to_icon. -/
def variant_make_score (v : Variant) (icon : IconEntry) : Rat :=
  overlap_score (tokenize (canonical_make v.make)) icon.make_tokens

/-- The genmodel sub-score of score_variant_to_icon. -/
def variant_gen_score (v : Variant) (icon : IconEntry) : Rat :=
  overlap_score (tokenize v.genmodel) icon.model_tokens

/-- The model sub-score of score_variant_to_icon. -/
def variant_model_score (v : Variant) (icon : IconEntry) : Rat :=
  overlap_score (tokenize v.model) icon.model_tokens

/-- The family sub-score of score_variant_to_icon: overlap of the variant's
family-token query against the icon's family tokens. -/
def variant_family_score (v : Variant) (icon : IconEntry) : Rat :=
  overlap_score (extract_family_tokens v.make v.genmodel v.model) icon.family_tokens

/-- The year sub-score: proximity when both years are truthy (nonzero and,
for the icon, present), a neutral 0.25 otherwise. -/
def variant_year_score (v : Variant) (icon : IconEntry) : Rat :=
  match icon.year with
  | some iy =>
    if v.year != 0 && iy != 0 then max 0 (1 - ((v.year - iy).natAbs : Rat) / 15)
    else 0.25
  | none => 0.25

/-- Whether the variant's own genmodel/model tokens look race-like. -/
def variant_race_like (v : Variant) : Bool :=
  looks_race_or_special (tokenize (v.genmodel ++ " " ++ v.model))

/-- The race/special penalty: 0.16 when the icon is race-flagged but the
variant is not. -/
def race_penalty (v : Variant) (icon : IconEntry) : Rat :=
  if icon.race_like && !variant_race_like v then 0.16 else 0

/-- The large-year-gap penalty: 0.08 when both years are truthy and more than
20 apart. -/
def year_gap_penalty (v : Variant) (icon : IconEntry) : Rat :=
  match icon.year with
  | some iy => if v.year != 0 && iy != 0 && (v.year - iy).natAbs > 20 then 0.08 else 0
  | none => 0

/-- Embeds score_variant_to_icon, mirroring the source's sequence: weighted
sum of the five sub-scores, the two penalties subtracted in order, and a
final clamp to [0, 1].  The second component is the parts dict
(make, family, genmodel, model, year). -/
def score_variant_to_icon (v : Variant) (icon : IconEntry) : Rat × (Rat × Rat × Rat × Rat × Rat) :=
  let make_score := variant_make_score v icon
  let family_score := variant_family_score v icon
  let gen_score := variant_gen_score v icon
  let model_score := variant_model_score v icon
  let year_score := variant_year_score v icon
  let score := make_score * 0.42 + family_score * 0.28 + gen_score * 0.15 +
    model_score * 0.10 + year_score * 0.05
  let score := if icon.race_like && !variant_race_like v then score - 0.16 else score
  let score :=
    match icon.year with
    | some iy => if v.year != 0 && iy != 0 && (v.year - iy).natAbs > 20 then score - 0.08 else score
    | none => score
  let score := max 0 (min 1 score)
  (score, (make_score, family_score, gen_score, model_score, year_score))

/-- The three coverage statuses of the classifier. -/
inductive Status where
  | clearly_missing
  | weak_match
  | covered
deriving Repr, DecidableEq

/-- Embeds classify. -/
def classify (score : Rat) (has_make_candidates : Bool) : Status :=
  if !has_make_candidates then .clearly_missing
  else if score < MISSING_THRESHOLD then .clearly_missing
  else if score < WEAK_THRESHOLD then .weak_match
  else .covered

/-- Embeds main's candidate selection: the icons grouped under the variant's
canonical make (build_make_index preserves catalog order, so the group is the
order-preserving filter), falling back, when that group is empty, to every
icon whose make-token set meets the variant's canonical-make token set. -/
def candidates_for (icons : List IconEntry) (v : Variant) : List IconEntry :=
  let make_can := canonical_make v.make
  let primary := icons.filter (fun e => e.make_canonical == make_can)
  if primary.isEmpty then
    let make_toks := tokenize make_can
    icons.filter (fun e => e.make_tokens.any (fun t => make_toks.contains t))
  else primary

/-- Embeds main's best-candidate loop: running maximum starting at -1.0 with
a strict greater-than update. -/
def best_score_for (v : Variant) (cands : List IconEntry) : Rat :=
  cands.foldl
    (fun best icon => if best < (score_variant_to_icon v icon).1 then (score_variant_to_icon v icon).1 else best)
    (-1)

/-- Embeds the status computed for one variant in main: classify the best
score (floored to 0.0 when no candidate scored positive) with candidate
presence as the flag. -/
def variant_status (icons : List IconEntry) (v : Variant) : Status :=
  let cands := candidates_for icons v
  let best := best_score_for v cands
  classify (if 0 < best then best else 0) !cands.isEmpty

/-- One row of the DVLA census CSV, restricted to the columns
iter_dvla_variants reads; every cell is raw text as DictReader yields it. -/
structure DvlaRow where
  BodyType : String
  Make : String
  GenModel : String
  Model : String
  YearManufacture : String
  YearFirstUsed : String
  count2024 : String
  count2023 : String
deriving Repr, DecidableEq

/-- The aggregated per-variant record of iter_dvla_variants. -/
structure VariantRec where
  make : String
  genmodel : String
  model : String
  year : Int
  fleet_estimate : Int
  rows : Int
deriving Repr, DecidableEq

/-- Aggregation key: (make, genmodel, model, year). -/
abbrev VKey := String × String × String × Int

/-- Insert-or-update on an insertion-ordered association list: updates the
existing binding in place, or appends the key at the end — exactly a Python
dict assignment. -/
def updAssoc {K V : Type} [DecidableEq K] (k : K) (f : Option V → V) :
    List (K × V) → List (K × V)
  | [] => [(k, f none)]
  | (k', v) :: rest =>
    if k' = k then (k', f (some v)) :: rest else (k', v) :: updAssoc k f rest

/-- Dictionary lookup on an association list. -/
def lookupAssoc {K V : Type} [DecidableEq K] (l : List (K × V)) (k : K) : Option V :=
  (l.find? (fun p => decide (p.1 = k))).map Prod.snd

/-- The parsed year of one census row: YearManufacture, falling back (via
Python's or on the 0-falsy int) to YearFirstUsed. -/
def row_year (row : DvlaRow) : Int :=
  let y := parse_int_like row.YearManufacture
  if y ≠ 0 then y else parse_int_like row.YearFirstUsed

/-- The summed two-most-recent-year count of one census row. -/
def row_latest_count (row : DvlaRow) : Int :=
  parse_int_like row.count2024 + parse_int_like row.count2023

/-- Whether iter_dvla_variants folds this row in: body type cars, nonempty
make, and a nonempty genmodel or model. -/
def row_accepted (row : DvlaRow) : Bool :=
  lowerStr (normalize_space row.BodyType) == "cars" &&
  !(normalize_space row.Make).isEmpty &&
  ((!(normalize_space row.GenModel).isEmpty) || !(normalize_space row.Model).isEmpty)

/-- Embeds one iteration of the aggregation loop in iter_dvla_variants. -/
def fold_variant_row (agg : List (VKey × VariantRec)) (row : DvlaRow) :
    List (VKey × VariantRec) :=
  if row_accepted row then
    let make := normalize_space row.Make
    let genmodel := normalize_space row.GenModel
    let model := normalize_space row.Model
    let year := row_year row
    let latest := row_latest_count row
    updAssoc (make, genmodel, model, year)
      (fun item =>
        match item with
        | none => ⟨make, genmodel, model, year, latest, 1⟩
        | some it => {it with fleet_estimate := it.fleet_estimate + latest, rows := it.rows + 1})
      agg
  else agg

/-- Embeds iter_dvla_variants as the fold of the per-row step over the CSV
rows, starting from the empty aggregation dict. -/
def iter_dvla_variants (rows : List DvlaRow) : List (VKey × VariantRec) :=
  rows.foldl fold_variant_row []

/-- The fleet_estimate recorded for a key, 0 when the key is absent. -/
def fleetAt (agg : List (VKey × VariantRec)) (k : VKey) : Int :=
  match lookupAssoc agg k with
  | some it => it.fleet_estimate
  | none => 0

end Crossref

namespace Lookup

/-- The auto-apply thresholds of build_dvla_vehicle_icon_lookup.py. -/
def MIN_COVERED_SCORE : Rat := 0.50

/-- Embeds MIN_WEAK_SCORE. -/
def MIN_WEAK_SCORE : Rat := 0.60

/-- Embeds MIN_DEFAULT_SCORE. -/
def MIN_DEFAULT_SCORE : Rat := 0.52

/-- The MAKE_ALIAS table of build_dvla_vehicle_icon_lookup.py (note the
concatenated, space-free values: this tool builds flat index keys, unlike the
cross-ref scorer's space-joined grouping keys). -/
def MAKE_ALIAS : List (String × String) :=
  [("mercedes benz", "mercedes"),
   ("mercedes-benz", "mercedes"),
   ("mercedes amg", "mercedes"),
   ("amg mercedes", "mercedes"),
   ("alfa romeo", "alfaromeo"),
   ("land rover", "landrover"),
   ("range rover", "landrover"),
   ("rolls royce", "rollsroyce"),
   ("vw", "volkswagen")]

/-- Embeds normalize_make_key: lowercase alphanumerics with every other
character mapped to space, split, alias on the joined and first-two-token
forms, else concatenate the tokens with no separator. -/
def normalize_make_key (text : String) : String :=
  let base := String.mk (text.toList.map (fun ch => if ch.isAlphanum then ch.toLower else ' '))
  let toks := Crossref.splitRunsAux (fun c => !c.isWhitespace) base.toList []
  if toks.isEmpty then ""
  else
    let joined := String.intercalate " " toks
    match Crossref.aliasLookup MAKE_ALIAS joined with
    | some v => v
    | none =>
      if 2 ≤ toks.length then
        match Crossref.aliasLookup MAKE_ALIAS (String.intercalate " " (toks.take 2)) with
        | some v => v
        | none => String.join toks
      else String.join toks

/-- Embeds safe_float: float(str(text or "0").strip()) with failures coerced
to 0.0. -/
def safe_float (text : String) : Rat :=
  let s := Crossref.trimStr (if text.isEmpty then "0" else text)
  match Crossref.parseDecimal? s with
  | some q => q
  | none => 0

/-- Embeds safe_int: int(float(str(text or "0").strip())) with failures
coerced to 0. -/
def safe_int (text : String) : Int :=
  let s := Crossref.trimStr (if text.isEmpty then "0" else text)
  match Crossref.parseDecimal? s with
  | some q => Crossref.ratTruncToInt q
  | none => 0

/-- One accumulator node of the lookup builder (the dict the source keeps per
make and per make+year). -/
structure Node where
  icon : String
  label : String
  weight : Rat
  score_weight : Rat
  samples : Nat
deriving Repr, DecidableEq

/-- One row of the covered / weak-match CSVs, restricted to the columns
consume_rows reads; cells are raw CSV text. -/
structure CsvRow where
  make : String
  year : String
  fleet_estimate : String
  score : String
  best_icon_path : String
  best_icon_label : String
deriving Repr, DecidableEq

/-- The fresh node installed by setdefault for a row's icon and label. -/
def init_node (icon_path label : String) : Node :=
  { icon := icon_path, label := label, weight := 0, score_weight := 0, samples := 0 }

/-- The per-row weight: max(1.0, fleet_estimate * max(score, 0.01)). -/
def row_weight (fleet : Int) (score : Rat) : Rat :=
  max 1 ((fleet : Rat) * max score 0.01)

/-- Embeds the per-node folding rule of consume_rows (the source repeats this
block verbatim for the year slot and the default slot): accumulate when the
icon agrees; otherwise the row's weight competes against the node's total,
replacing the choice when strictly greater and merely adding mass when not;
samples increments on every branch. -/
def apply_row (slot : Node) (icon_path label : String) (weight score : Rat) : Node :=
  if slot.icon ≠ icon_path then
    if slot.weight < weight then
      { icon := icon_path,
        label := label,
        weight := weight,
        score_weight := weight * score,
        samples := slot.samples + 1 }
    else
      { slot with
          weight := slot.weight + weight,
          score_weight := slot.score_weight + weight * score,
          samples := slot.samples + 1 }
  else
    { slot with
        weight := slot.weight + weight,
        score_weight := slot.score_weight + weight * score,
        samples := slot.samples + 1 }

/-- The two accumulator tables of the builder, in insertion order:
by_make_year (make, then year, to node) and by_make_default (make to node). -/
structure BuildAcc where
  by_make_year : List (String × List (Int × Node))
  by_make_default : List (String × Node)
deriving Repr, DecidableEq

/-- Whether consume_rows folds this row in under the given minimum score:
icon path under gfx/vehicle_icons/, nonempty make key, score not below the
threshold. -/
def lookup_row_accepted (min_score : Rat) (row : CsvRow) : Bool :=
  Crossref.startsWithStr (Crossref.trimStr row.best_icon_path) "gfx/vehicle_icons/" &&
  !(normalize_make_key row.make).isEmpty &&
  !(safe_float row.score < min_score)

/-- Embeds one iteration of the row loop in consume_rows. -/
def consume_row (min_score : Rat) (acc : BuildAcc) (row : CsvRow) : BuildAcc :=
  if lookup_row_accepted min_score row then
    let icon_path := Crossref.trimStr row.best_icon_path
    let make_key := normalize_make_key row.make
    let score := safe_float row.score
    let year := safe_int row.year
    let fleet := safe_int row.fleet_estimate
    let weight := row_weight fleet score
    let label := Crossref.trimStr row.best_icon_label
    let yearUpd :=
      Crossref.updAssoc make_key
        (fun ym => Crossref.updAssoc year
          (fun slot => apply_row (slot.getD (init_node icon_path label)) icon_path label weight score)
          (ym.getD []))
        acc.by_make_year
    let acc1 := if year ≠ 0 then { acc with by_make_year := yearUpd } else acc
    let defaultUpd :=
      Crossref.updAssoc make_key
        (fun slot => apply_row (slot.getD (init_node icon_path label)) icon_path label weight score)
        acc1.by_make_default
    { acc1 with by_make_default := defaultUpd }
  else acc

/-- Embeds consume_rows over an in-memory row list; a missing input file is
the empty list.  Also returns the rows_used counter. -/
def consume_rows (min_score : Rat) (rows : List CsvRow) (acc : BuildAcc) : BuildAcc × Nat :=
  rows.foldl
    (fun st row =>
      (consume_row min_score st.1 row,
       if lookup_row_accepted min_score row then st.2 + 1 else st.2))
    (acc, 0)

/-- Embeds avg_score: score_weight / weight when the weight is positive, 0
otherwise. -/
def avg_score (node : Node) : Rat :=
  if node.weight ≤ 0 then 0 else node.score_weight / node.weight

/-- Round-half-to-even at the integers, as Python's round does on these
values. -/
def round_half_even (q : Rat) : Int :=
  let f := ⌊q⌋
  let frac := q - (f : Rat)
  if frac < 1/2 then f
  else if 1/2 < frac then f + 1
  else if f % 2 = 0 then f else f + 1

/-- Embeds round(x, 4). -/
def round4 (q : Rat) : Rat :=
  (round_half_even (q * 10000) : Rat) / 10000

/-- One emitted per-year entry. -/
structure YearOut where
  icon : String
  label : String
  score : Rat
  samples : Nat
deriving Repr, DecidableEq

/-- One emitted per-make entry. -/
structure MakeOut where
  default_icon : String
  default_label : String
  default_score : Rat
  samples : Nat
  years : List (Int × YearOut)
deriving Repr, DecidableEq

/-- Embeds the emission loop of main: iterate the makes of by_make_year in
insertion order, drop makes without a default node or whose default average
score is below MIN_DEFAULT_SCORE, emit the rest with all their year
sub-nodes. -/
def build_by_make (acc : BuildAcc) : List (String × MakeOut) :=
  acc.by_make_year.filterMap (fun p =>
    match Crossref.lookupAssoc acc.by_make_default p.1 with
    | none => none
    | some default =>
      let default_score := avg_score default
      if default_score < MIN_DEFAULT_SCORE then none
      else
        some (p.1,
          { default_icon := default.icon,
            default_label := default.label,
            default_score := round4 default_score,
            samples := default.samples,
            years := p.2.map (fun yp =>
              (yp.1,
               { icon := yp.2.icon, label := yp.2.label,
                 score := round4 (avg_score yp.2), samples := yp.2.samples })) }))

/-- The serialized payload of the builder, with the effectful clock made an
explicit argument (generated_at is the only place the clock is read). -/
structure Payload where
  generated_at_utc : String
  rows_used_covered : Nat
  rows_used_weak : Nat
  make_count : Nat
  by_make : List (String × MakeOut)
deriving Repr, DecidableEq

/-- Embeds main of build_dvla_vehicle_icon_lookup.py as a function of the two
input CSVs (as row lists) and the current timestamp. -/
def lookup_main (covered weak : List CsvRow) (now : String) : Payload :=
  let step1 := consume_rows MIN_COVERED_SCORE covered ⟨[], []⟩
  let step2 := consume_rows MIN_WEAK_SCORE weak step1.1
  let bm := build_by_make step2.1
  { generated_at_utc := now,
    rows_used_covered := step1.2,
    rows_used_weak := step2.2,
    make_count := bm.length,
    by_make := bm }

end Lookup

open Crossref Lookup

section HelperLemmas

theorem max_min_clamp_nonneg (x : Rat) : 0 ≤ max 0 (min 1 x) :=
  le_max_left 0 (min 1 x)

theorem max_min_clamp_le_one (x : Rat) : max 0 (min 1 x) ≤ 1 :=
  max_le (by norm_num) (min_le_left 1 x)

end HelperLemmas

/-- C1: score_variant_to_icon returns exactly the clamped weighted sum
0.42·make + 0.28·family + 0.15·gen + 0.10·model + 0.05·year minus the 0.16
race penalty and the 0.08 year-gap penalty, and the result always lies in
[0, 1]. -/
theorem C1_score_formula_and_bounds (v : Variant) (i : IconEntry) :
    (score_variant_to_icon v i).1 =
      max 0 (min 1
        (variant_make_score v i * 0.42 + variant_family_score v i * 0.28 +
         variant_gen_score v i * 0.15 + variant_model_score v i * 0.10 +
         variant_year_score v i * 0.05 -
         race_penalty v i - year_gap_penalty v i)) ∧
    0 ≤ (score_variant_to_icon v i).1 ∧ (score_variant_to_icon v i).1 ≤ 1 := by
  refine ⟨?_, ?_, ?_⟩
  · unfold score_variant_to_icon race_penalty year_gap_penalty
    cases hy : i.year with
    | none =>
      by_cases hc : (i.race_like && !variant_race_like v) = true <;>
        simp only [hy, hc, if_true, if_false, Bool.not_eq_true] <;> simp [hc]
    | some iy =>
      by_cases hc : (i.race_like && !variant_race_like v) = true <;>
      by_cases hg : (v.year != 0 && iy != 0 && decide ((v.year - iy).natAbs > 20)) = true <;>
        simp only [hy, hc, hg, if_true, if_false, Bool.not_eq_true] <;>
        simp [hc, hg]
  · unfold score_variant_to_icon
    cases i.year <;> exact max_min_clamp_nonneg _
  · unfold score_variant_to_icon
    cases i.year <;> exact max_min_clamp_le_one _

/-- C2: classify returns clearly_missing without candidates or below 0.18,
weak_match on [0.18, 0.42), covered at or above 0.42; the boundaries 0.18 and
0.42 fall in weak_match and covered respectively. -/
theorem C2_classify_boundaries (s : Rat) :
    classify s false = .clearly_missing ∧
    (s < 0.18 → classify s true = .clearly_missing) ∧
    (0.18 ≤ s → s < 0.42 → classify s true = .weak_match) ∧
    (0.42 ≤ s → classify s true = .covered) ∧
    classify 0.18 true = .weak_match ∧
    classify 0.42 true = .covered := by
  refine ⟨rfl, ?_, ?_, ?_, by decide, by decide⟩
  · intro h
    simp [classify, MISSING_THRESHOLD, h]
  · intro h1 h2
    simp [classify, MISSING_THRESHOLD, WEAK_THRESHOLD, not_lt.mpr h1, h2]
  · intro h
    have h1 : ¬s < MISSING_THRESHOLD := by
      simp only [MISSING_THRESHOLD]; intro hlt; norm_num at *; linarith
    have h2 : ¬s < WEAK_THRESHOLD := by
      simp only [WEAK_THRESHOLD]; exact not_lt.mpr h
    simp [classify, h1, h2]

/-- Witness for C2 at concrete scores on each side of the thresholds. -/
theorem C2_classify_boundaries_witness :
    classify 0.1 true = .clearly_missing ∧
    classify 0.3 true = .weak_match ∧
    classify 0.5 true = .covered :=
  ⟨(C2_classify_boundaries 0.1).2.1 (by norm_num),
   (C2_classify_boundaries 0.3).2.2.1 (by norm_num) (by norm_num),
   (C2_classify_boundaries 0.5).2.2.2.1 (by norm_num)⟩

theorem dedupFirstAux_sub : ∀ (l seen : List String), dedupFirstAux seen l ⊆ l := by
  intro l
  induction l with
  | nil => intro seen x hx; exact absurd hx (List.not_mem_nil x)
  | cons t ts ih =>
    intro seen x hx
    simp only [dedupFirstAux] at hx
    by_cases hmem : t ∈ seen
    · simp only [hmem, if_true] at hx
      exact List.mem_cons_of_mem t (ih seen hx)
    · simp only [hmem, if_false] at hx
      rcases List.mem_cons.mp hx with h | h
      · exact h ▸ List.mem_cons_self x ts
      · exact List.mem_cons_of_mem t (ih (t :: seen) h)

theorem dedupFirstAux_nodup :
    ∀ (l seen : List String),
      (∀ x ∈ dedupFirstAux seen l, x ∉ seen) ∧ (dedupFirstAux seen l).Nodup := by
  intro l
  induction l with
  | nil => intro seen; exact ⟨fun x hx => absurd hx (List.not_mem_nil x), List.nodup_nil⟩
  | cons t ts ih =>
    intro seen
    simp only [dedupFirstAux]
    by_cases hmem : t ∈ seen
    · simp only [hmem, if_true]
      exact ih seen
    · simp only [hmem, if_false]
      obtain ⟨hdisj, hnd⟩ := ih (t :: seen)
      refine ⟨?_, ?_⟩
      · intro x hx
        rcases List.mem_cons.mp hx with h | h
        · exact h ▸ hmem
        · exact fun hseen => hdisj x h (List.mem_cons_of_mem t hseen)
      · refine List.nodup_cons.mpr ⟨?_, hnd⟩
        intro hcontra
        exact hdisj t hcontra (List.mem_cons_self t seen)

/-- C7: every family-token list produced by extract_family_tokens (used both
by the catalog loader for icon entries and for the scoring queries) has
length at most 6, no duplicates, and no token of the canonicalized make. -/
theorem C7_family_tokens_invariant (make genmodel model : String) :
    (extract_family_tokens make genmodel model).length ≤ 6 ∧
    (extract_family_tokens make genmodel model).Nodup ∧
    ∀ t ∈ extract_family_tokens make genmodel model, t ∉ tokenize (canonical_make make) := by
  refine ⟨?_, ?_, ?_⟩
  · simp only [extract_family_tokens]
    exact List.length_take_le 6 _
  · simp only [extract_family_tokens, dedup_first]
    exact ((List.take_sublist 6 _).nodup (dedupFirstAux_nodup _ []).2)
  · intro t ht
    simp only [extract_family_tokens, dedup_first] at ht
    have h1 := List.take_subset 6 _ ht
    have h2 := dedupFirstAux_sub _ [] h1
    have h3 := (List.mem_filter.mp h2).2
    simp only [Bool.and_eq_true, Bool.not_eq_true', decide_eq_false_iff_not] at h3
    exact h3.1.1

/-- Witness for C7: a concrete family token of the Mercedes scenario is
indeed outside the canonical-make token set. -/
theorem C7_family_tokens_invariant_witness :
    "benz" ∉ tokenize (canonical_make "Mercedes Benz") :=
  (C7_family_tokens_invariant "Mercedes Benz" "E Class" "E220").2.2 "benz" (by decide)

/-- The fleet variant of the spec's end-to-end Mercedes scenario. -/
def mercedes_variant : Variant :=
  { make := "Mercedes Benz", genmodel := "E Class", model := "E220", year := 2015 }

/-- The icon catalog entry of the spec's end-to-end Mercedes scenario. -/
def mercedes_icon : IconEntry :=
  { icon_file := "mercedes_e_class_2015.png",
    icon_path := "gfx/vehicle_icons/gran_turismo_200_circle/mercedes_e_class_2015.png",
    key := "mercedes_e_class_2015",
    label := "Mercedes E Class 2015",
    make_canonical := "mercedes",
    make_tokens := ["mercedes"],
    model_tokens := ["mercedes", "e", "class", "2015"],
    year := some 2015,
    family_tokens := ["e", "class"],
    race_like := false }

/-- C5 counterexample: in the Mercedes scenario the family sub-score is 1/3,
not 1.0 as claimed — the variant's family-token query is
[benz, class, e220] (benz survives because the canonical make is just
mercedes, and the bare e is dropped as a single character), and only class
meets the icon's family tokens. -/
theorem C5_family_score_counterexample :
    variant_family_score mercedes_variant mercedes_icon = 1/3 ∧
    extract_family_tokens mercedes_variant.make mercedes_variant.genmodel mercedes_variant.model =
      ["benz", "class", "e220"] ∧
    ¬ variant_family_score mercedes_variant mercedes_icon = 1 := by
  refine ⟨by decide, by decide, by decide⟩

/-- C5 (amended): in the Mercedes scenario make_score = 1.0 via the
mercedes benz → mercedes alias, family_score = 1/3, year_score = 1.0, the
overall score (= 107/150 ≈ 0.713) is at least 0.42, and the variant is
classified covered. -/
theorem C5_mercedes_scenario :
    variant_make_score mercedes_variant mercedes_icon = 1 ∧
    variant_family_score mercedes_variant mercedes_icon = 1/3 ∧
    variant_year_score mercedes_variant mercedes_icon = 1 ∧
    (score_variant_to_icon mercedes_variant mercedes_icon).1 = 107/150 ∧
    (0.42 : Rat) ≤ (score_variant_to_icon mercedes_variant mercedes_icon).1 ∧
    variant_status [mercedes_icon] mercedes_variant = .covered := by
  refine ⟨by decide, by decide, by decide, by decide, by decide, by decide⟩

theorem head?_filterMap_eq {α β : Type} (f : α → Option β) :
    ∀ (l : List α), (l.filterMap f).head? = ((l.filter (fun a => (f a).isSome)).head?).bind f := by
  intro l
  induction l with
  | nil => rfl
  | cons a l ih =>
    simp only [List.filterMap_cons, List.filter_cons]
    cases hfa : f a with
    | some b => simp [hfa]
    | none => simp [hfa, ih]

theorem getLast?_filterMap_eq {α β : Type} (f : α → Option β) (l : List α) :
    (l.filterMap f).getLast? = ((l.filter (fun a => (f a).isSome)).getLast?).bind f := by
  rw [List.getLast?_eq_head?_reverse, List.getLast?_eq_head?_reverse,
    ← List.filterMap_reverse, ← List.filter_reverse]
  exact head?_filterMap_eq f l.reverse

/-- C8: year_from_key prefers the last in-range 4-digit token, then the
2-digit pivot on the trailing token, then none — stated as agreement with the
spec's phrasing on every key — and the four concrete examples compute as the
spec says. -/
theorem C8_year_from_key (key : String) :
    year_from_key "mustang_1967" = some 1967 ∧
    year_from_key "supra_02" = some 2002 ∧
    year_from_key "civic_99" = some 1999 ∧
    year_from_key "no_year_here" = none ∧
    year_from_key key = year_from_key_as_specified key := by
  refine ⟨by decide, by decide, by decide, by decide, ?_⟩
  cases htoks : tokenize key with
  | nil => simp [year_from_key, year_from_key_as_specified, htoks]
  | cons a l =>
    simp only [year_from_key, year_from_key_as_specified, htoks, List.isEmpty_cons,
      Bool.false_eq_true, if_false]
    rw [getLast?_filterMap_eq]

theorem best_score_foldl_lt (v : Variant) (c : Rat) :
    ∀ (l : List IconEntry) (init : Rat), init < c →
      (∀ x ∈ l, (score_variant_to_icon v x).1 < c) →
      l.foldl
        (fun best icon =>
          if best < (score_variant_to_icon v icon).1 then (score_variant_to_icon v icon).1 else best)
        init < c := by
  intro l
  induction l with
  | nil => intro init h _; simpa using h
  | cons a l ih =>
    intro init h hall
    simp only [List.foldl_cons]
    apply ih
    · by_cases hlt : init < (score_variant_to_icon v a).1
      · simpa [hlt] using hall a (List.mem_cons_self a l)
      · simpa [hlt] using h
    · intro x hx
      exact hall x (List.mem_cons_of_mem a hx)

/-- C3: when no icon shares the variant's canonical make, the candidate set
is exactly the icons with any make-token overlap; and even with that fallback
set nonempty, if every candidate scores below 0.18 the variant is classified
clearly_missing — the score threshold, not candidate presence, decides. -/
theorem C3_fallback_threshold_gates (icons : List IconEntry) (v : Variant)
    (hprimary : icons.filter (fun e => e.make_canonical == canonical_make v.make) = [])
    (hfb : candidates_for icons v ≠ [])
    (hlow : ∀ c ∈ candidates_for icons v, (score_variant_to_icon v c).1 < MISSING_THRESHOLD) :
    candidates_for icons v =
      icons.filter (fun e => e.make_tokens.any (fun t => (tokenize (canonical_make v.make)).contains t)) ∧
    variant_status icons v = .clearly_missing := by
  constructor
  · simp [candidates_for, hprimary]
  · have hflag : (candidates_for icons v).isEmpty = false := by
      cases hc : candidates_for icons v with
      | nil => exact absurd hc hfb
      | cons a l => rfl
    have hbest : best_score_for v (candidates_for icons v) < MISSING_THRESHOLD := by
      unfold best_score_for
      exact best_score_foldl_lt v MISSING_THRESHOLD _ (-1)
        (by norm_num [MISSING_THRESHOLD]) hlow
    show classify
        (if 0 < best_score_for v (candidates_for icons v)
         then best_score_for v (candidates_for icons v) else 0)
        (!(candidates_for icons v).isEmpty) = Status.clearly_missing
    rw [hflag]
    by_cases hpos : 0 < best_score_for v (candidates_for icons v)
    · simp [classify, hpos, hbest]
    · have h0 : (0 : Rat) < MISSING_THRESHOLD := by norm_num [MISSING_THRESHOLD]
      simp [classify, hpos, h0]

/-- The concrete fallback-path variant: its six-token make canonicalizes to
itself, matching no icon's canonical make. -/
def fallback_variant : Variant :=
  { make := "a1 b2 c3 d4 e5 foo", genmodel := "zzz", model := "", year := 0 }

/-- The concrete icon reached only through the token-overlap fallback (shares
the token foo with the variant's canonical make). -/
def fallback_icon : IconEntry :=
  { icon_file := "foobar.png",
    icon_path := "gfx/vehicle_icons/gran_turismo_200_circle/foobar.png",
    key := "foobar",
    label := "Foo Bar",
    make_canonical := "foo bar",
    make_tokens := ["foo", "bar"],
    model_tokens := [],
    year := none,
    family_tokens := [],
    race_like := false }

/-- Witness for C3: on the concrete fallback scenario the hypotheses hold and
the variant is classified clearly_missing. -/
theorem C3_fallback_threshold_gates_witness :
    variant_status [fallback_icon] fallback_variant = .clearly_missing :=
  (C3_fallback_threshold_gates [fallback_icon] fallback_variant
    (by decide) (by decide) (by decide)).2

theorem lookupAssoc_cons {K V : Type} [DecidableEq K] (a : K) (b : V) (l : List (K × V)) (k' : K) :
    lookupAssoc ((a, b) :: l) k' = if a = k' then some b else lookupAssoc l k' := by
  simp only [lookupAssoc, List.find?_cons]
  by_cases h : a = k'
  · simp [h]
  · simp [h]

theorem updAssoc_cons_hit {K V : Type} [DecidableEq K] (a : K) (b : V) (f : Option V → V)
    (rest : List (K × V)) :
    updAssoc a f ((a, b) :: rest) = (a, f (some b)) :: rest := by
  simp [updAssoc]

theorem updAssoc_cons_miss {K V : Type} [DecidableEq K] (k a : K) (b : V) (f : Option V → V)
    (rest : List (K × V)) (hak : ¬a = k) :
    updAssoc k f ((a, b) :: rest) = (a, b) :: updAssoc k f rest := by
  simp [updAssoc, hak]

theorem lookupAssoc_updAssoc {K V : Type} [DecidableEq K] (k k' : K) (f : Option V → V) :
    ∀ (l : List (K × V)),
      lookupAssoc (updAssoc k f l) k' =
        if k' = k then some (f (lookupAssoc l k)) else lookupAssoc l k' := by
  intro l
  induction l with
  | nil =>
    show lookupAssoc [(k, f none)] k' = _
    rw [lookupAssoc_cons]
    by_cases h : k' = k
    · subst h; simp [lookupAssoc]
    · simp [h, Ne.symm h, lookupAssoc]
  | cons p rest ih =>
    obtain ⟨a, b⟩ := p
    by_cases hak : a = k
    · subst hak
      rw [updAssoc_cons_hit]
      simp only [lookupAssoc_cons]
      by_cases h : k' = a
      · subst h; simp
      · simp [h, Ne.symm h]
    · rw [updAssoc_cons_miss k a b f rest hak]
      simp only [lookupAssoc_cons, ih]
      by_cases h : a = k'
      · subst h
        simp [hak]
      · by_cases hkk : k' = k
        · subst hkk
          simp [h, hak]
        · simp [h, hkk]

theorem mem_keys_updAssoc {K V : Type} [DecidableEq K] (k x : K) (f : Option V → V) :
    ∀ (l : List (K × V)),
      x ∈ (updAssoc k f l).map Prod.fst ↔ x ∈ l.map Prod.fst ∨ x = k := by
  intro l
  induction l with
  | nil => simp [updAssoc]
  | cons p rest ih =>
    obtain ⟨a, b⟩ := p
    by_cases hak : a = k
    · subst hak
      rw [updAssoc_cons_hit]
      simp only [List.map_cons, List.mem_cons]
      tauto
    · rw [updAssoc_cons_miss k a b f rest hak]
      simp only [List.map_cons, List.mem_cons, ih]
      tauto

theorem keys_nodup_updAssoc {K V : Type} [DecidableEq K] (k : K) (f : Option V → V) :
    ∀ (l : List (K × V)), (l.map Prod.fst).Nodup → ((updAssoc k f l).map Prod.fst).Nodup := by
  intro l
  induction l with
  | nil =>
    intro _
    simp [updAssoc]
  | cons p rest ih =>
    obtain ⟨a, b⟩ := p
    intro hnd
    rw [List.map_cons, List.nodup_cons] at hnd
    obtain ⟨hna, hnrest⟩ := hnd
    by_cases hak : a = k
    · subst hak
      rw [updAssoc_cons_hit, List.map_cons, List.nodup_cons]
      exact ⟨hna, hnrest⟩
    · rw [updAssoc_cons_miss k a b f rest hak, List.map_cons, List.nodup_cons]
      refine ⟨?_, ih hnrest⟩
      intro hmem
      rcases (mem_keys_updAssoc k a f rest).mp hmem with h | h
      · exact hna h
      · exact hak h

theorem iter_dvla_variants_keys_nodup (rows : List DvlaRow) :
    ((iter_dvla_variants rows).map Prod.fst).Nodup := by
  have gen : ∀ (rs : List DvlaRow) (init : List (VKey × VariantRec)),
      (init.map Prod.fst).Nodup → ((rs.foldl fold_variant_row init).map Prod.fst).Nodup := by
    intro rs
    induction rs with
    | nil => intro init h; simpa using h
    | cons r rs ih =>
      intro init h
      simp only [List.foldl_cons]
      apply ih
      unfold fold_variant_row
      by_cases hacc : row_accepted r = true
      · simp only [hacc, if_true]
        exact keys_nodup_updAssoc _ _ init h
      · simpa [hacc] using h
  exact gen rows [] (by simp)

theorem fleetAt_fold_variant_row_mono (agg : List (VKey × VariantRec)) (row : DvlaRow)
    (k : VKey) (hrow : 0 ≤ row_latest_count row) :
    fleetAt agg k ≤ fleetAt (fold_variant_row agg row) k := by
  unfold fold_variant_row
  by_cases hacc : row_accepted row = true
  · simp only [hacc, if_true]
    unfold fleetAt
    rw [lookupAssoc_updAssoc]
    by_cases hk : k =
      (normalize_space row.Make, normalize_space row.GenModel, normalize_space row.Model,
       row_year row)
    · rw [if_pos hk, ← hk]
      cases hl : lookupAssoc agg k with
      | none => simpa [hl] using hrow
      | some it => simp only [hl]; omega
    · rw [if_neg hk]
  · simp [hacc, le_refl]

/-- A concrete accepted census row with positive counts. -/
def census_row_a : DvlaRow :=
  { BodyType := "Cars",
    Make := "Foo",
    GenModel := "Bar",
    Model := "Baz",
    YearManufacture := "2010",
    YearFirstUsed := "",
    count2024 := "3",
    count2023 := "2" }

/-- The same variant key with a negative 2024 count cell, as int(float())
parses it. -/
def census_row_neg : DvlaRow :=
  { census_row_a with count2024 := "-1", count2023 := "0" }

/-- C6 counterexample: folding a census row whose two most-recent-year count
cells parse to a negative sum decreases fleet_estimate, so monotonicity as
claimed fails: after the first row the key holds 5, after also folding the
"-1" row it drops to 4. -/
theorem C6_monotonicity_counterexample :
    fleetAt (iter_dvla_variants [census_row_a]) ("Foo", "Bar", "Baz", 2010) = 5 ∧
    fleetAt (iter_dvla_variants [census_row_a, census_row_neg]) ("Foo", "Bar", "Baz", 2010) = 4 :=
  ⟨by decide, by decide⟩

/-- C6 (amended): the aggregation keeps exactly one record per distinct
(make, genmodel, model, year) key — the key list of the aggregate is always
duplicate-free — and fleet_estimate at any key is non-decreasing under
folding any census row whose summed two-most-recent-year count parses to a
non-negative value (true of every well-formed census count cell; a negative
cell such as "-1" is the one exception). -/
theorem C6_aggregation_invariant (rows : List DvlaRow) (agg : List (VKey × VariantRec))
    (row : DvlaRow) (k : VKey) (hrow : 0 ≤ row_latest_count row) :
    ((iter_dvla_variants rows).map Prod.fst).Nodup ∧
    fleetAt agg k ≤ fleetAt (fold_variant_row agg row) k :=
  ⟨iter_dvla_variants_keys_nodup rows, fleetAt_fold_variant_row_mono agg row k hrow⟩

/-- Witness for C6 on concrete data: duplicate rows fold into a single key
and the fleet estimate does not decrease when folding a non-negative row. -/
theorem C6_aggregation_invariant_witness :
    ((iter_dvla_variants [census_row_a, census_row_a]).map Prod.fst).Nodup ∧
    fleetAt [] ("Foo", "Bar", "Baz", 2010) ≤
      fleetAt (fold_variant_row [] census_row_a) ("Foo", "Bar", "Baz", 2010) :=
  C6_aggregation_invariant [census_row_a, census_row_a] [] census_row_a
    ("Foo", "Bar", "Baz", 2010) (by decide)

/-- C4: the lookup builder's per-row folding uses
weight = max(1.0, fleet_estimate * max(score, 0.01)); on a node, an agreeing
icon accumulates weight and weight*score, a competing row replaces the chosen
icon and resets the accumulators exactly when its weight strictly exceeds the
node's total, and otherwise only adds its mass; samples increments by one on
every branch. -/
theorem C4_lookup_fold_rule (slot : Lookup.Node) (icon_path label : String)
    (fleet : Int) (weight score : Rat) :
    Lookup.row_weight fleet score = max 1 ((fleet : Rat) * max score 0.01) ∧
    (slot.icon = icon_path →
      Lookup.apply_row slot icon_path label weight score =
        { slot with
            weight := slot.weight + weight,
            score_weight := slot.score_weight + weight * score,
            samples := slot.samples + 1 }) ∧
    (slot.icon ≠ icon_path → slot.weight < weight →
      Lookup.apply_row slot icon_path label weight score =
        { icon := icon_path,
          label := label,
          weight := weight,
          score_weight := weight * score,
          samples := slot.samples + 1 }) ∧
    (slot.icon ≠ icon_path → ¬slot.weight < weight →
      Lookup.apply_row slot icon_path label weight score =
        { slot with
            weight := slot.weight + weight,
            score_weight := slot.score_weight + weight * score,
            samples := slot.samples + 1 }) ∧
    (Lookup.apply_row slot icon_path label weight score).samples = slot.samples + 1 := by
  refine ⟨rfl, ?_, ?_, ?_, ?_⟩
  · intro heq
    simp [Lookup.apply_row, heq]
  · intro hne hlt
    simp [Lookup.apply_row, hne, hlt]
  · intro hne hge
    simp [Lookup.apply_row, hne, hge]
  · unfold Lookup.apply_row
    by_cases hne : slot.icon ≠ icon_path
    · by_cases hlt : slot.weight < weight
      · simp [hne, hlt]
      · simp [hne, hlt]
    · simp [hne]

/-- A concrete accumulator node for the C4 witness. -/
def node_example : Lookup.Node :=
  { icon := "gfx/vehicle_icons/a.png",
    label := "A",
    weight := 10,
    score_weight := 9,
    samples := 3 }

/-- Witness for C4: a competing row with strictly greater weight replaces the
node's icon and resets the accumulators, and samples still increments. -/
theorem C4_lookup_fold_rule_witness :
    Lookup.apply_row node_example "gfx/vehicle_icons/b.png" "B" 12 0.8 =
      { icon := "gfx/vehicle_icons/b.png",
        label := "B",
        weight := 12,
        score_weight := 9.6,
        samples := 4 } := by
  have h := (C4_lookup_fold_rule node_example "gfx/vehicle_icons/b.png" "B" 0 12 0.8).2.2.1
    (by decide) (by decide)
  rw [h]
  refine congrArg _ ?_
  decide

/-- C9: the lookup builder is a pure function of its two input CSVs — the
clock only feeds the generated_at_utc field, so two runs at different times
agree on by_make and every other content field. -/
theorem C9_lookup_builder_deterministic (covered weak : List Lookup.CsvRow) (t1 t2 : String) :
    (Lookup.lookup_main covered weak t1).by_make = (Lookup.lookup_main covered weak t2).by_make ∧
    (Lookup.lookup_main covered weak t1).rows_used_covered =
      (Lookup.lookup_main covered weak t2).rows_used_covered ∧
    (Lookup.lookup_main covered weak t1).rows_used_weak =
      (Lookup.lookup_main covered weak t2).rows_used_weak ∧
    (Lookup.lookup_main covered weak t1).make_count =
      (Lookup.lookup_main covered weak t2).make_count ∧
    (Lookup.lookup_main covered weak t1).generated_at_utc = t1 :=
  ⟨rfl, rfl, rfl, rfl, rfl⟩

theorem mem_year_keys_consume_row (min_score : Rat) (acc : Lookup.BuildAcc)
    (row : Lookup.CsvRow) (m : String)
    (hm : m ∈ (Lookup.consume_row min_score acc row).by_make_year.map Prod.fst) :
    m ∈ acc.by_make_year.map Prod.fst ∨
      (Lookup.lookup_row_accepted min_score row = true ∧
       Lookup.normalize_make_key row.make = m ∧ Lookup.safe_int row.year ≠ 0) := by
  unfold Lookup.consume_row at hm
  by_cases hacc : Lookup.lookup_row_accepted min_score row = true
  · rw [if_pos hacc] at hm
    dsimp only at hm
    by_cases hy : Lookup.safe_int row.year ≠ 0
    · rw [if_pos hy] at hm
      rcases (mem_keys_updAssoc _ _ _ _).mp hm with h | h
      · exact Or.inl h
      · exact Or.inr ⟨hacc, h.symm, hy⟩
    · rw [if_neg hy] at hm
      exact Or.inl hm
  · rw [if_neg hacc] at hm
    exact Or.inl hm

theorem consume_rows_fst (min_score : Rat) (rows : List Lookup.CsvRow) (acc : Lookup.BuildAcc) :
    (Lookup.consume_rows min_score rows acc).1 = rows.foldl (Lookup.consume_row min_score) acc := by
  have gen : ∀ (rs : List Lookup.CsvRow) (a : Lookup.BuildAcc) (n : Nat),
      (rs.foldl
        (fun st row =>
          (Lookup.consume_row min_score st.1 row,
           if Lookup.lookup_row_accepted min_score row then st.2 + 1 else st.2))
        (a, n)).1 = rs.foldl (Lookup.consume_row min_score) a := by
    intro rs
    induction rs with
    | nil => intro a n; rfl
    | cons r rs ih =>
      intro a n
      simp only [List.foldl_cons]
      exact ih _ _
  exact gen rows acc 0

theorem mem_year_keys_consume_list (min_score : Rat) :
    ∀ (rows : List Lookup.CsvRow) (acc : Lookup.BuildAcc) (m : String),
      m ∈ (rows.foldl (Lookup.consume_row min_score) acc).by_make_year.map Prod.fst →
      m ∈ acc.by_make_year.map Prod.fst ∨
        ∃ r ∈ rows, Lookup.lookup_row_accepted min_score r = true ∧
          Lookup.normalize_make_key r.make = m ∧ Lookup.safe_int r.year ≠ 0 := by
  intro rows
  induction rows with
  | nil => intro acc m h; exact Or.inl h
  | cons r rs ih =>
    intro acc m h
    simp only [List.foldl_cons] at h
    rcases ih _ m h with h1 | h1
    · rcases mem_year_keys_consume_row min_score acc r m h1 with h2 | h2
      · exact Or.inl h2
      · exact Or.inr ⟨r, List.mem_cons_self r rs, h2⟩
    · obtain ⟨x, hx, hprop⟩ := h1
      exact Or.inr ⟨x, List.mem_cons_of_mem r hx, hprop⟩

theorem mem_keys_build_by_make (acc : Lookup.BuildAcc) (m : String)
    (hm : m ∈ (Lookup.build_by_make acc).map Prod.fst) :
    m ∈ acc.by_make_year.map Prod.fst := by
  unfold Lookup.build_by_make at hm
  rw [List.mem_map] at hm
  obtain ⟨x, hx, hfx⟩ := hm
  rw [List.mem_filterMap] at hx
  obtain ⟨p, hp, hgp⟩ := hx
  have hx1 : x.1 = p.1 := by
    cases hl : Crossref.lookupAssoc acc.by_make_default p.1 with
    | none => rw [hl] at hgp; cases hgp
    | some d =>
      rw [hl] at hgp
      dsimp only at hgp
      by_cases hth : Lookup.avg_score d < Lookup.MIN_DEFAULT_SCORE
      · rw [if_pos hth] at hgp; cases hgp
      · rw [if_neg hth] at hgp
        have := Option.some.inj hgp
        rw [← this]
  rw [← hfx, hx1]
  exact List.mem_map_of_mem Prod.fst hp

theorem lookup_main_by_make (covered weak : List Lookup.CsvRow) (now : String) :
    (Lookup.lookup_main covered weak now).by_make =
      Lookup.build_by_make
        (weak.foldl (Lookup.consume_row Lookup.MIN_WEAK_SCORE)
          (covered.foldl (Lookup.consume_row Lookup.MIN_COVERED_SCORE) ⟨[], []⟩)) := by
  show Lookup.build_by_make
      (Lookup.consume_rows Lookup.MIN_WEAK_SCORE weak
        (Lookup.consume_rows Lookup.MIN_COVERED_SCORE covered ⟨[], []⟩).1).1 = _
  rw [consume_rows_fst, consume_rows_fst]

/-- C10: a make whose accepted rows all carry year 0 never reaches the
by_make output — emission iterates only over makes holding a per-year node,
which only rows with a nonzero year create — regardless of its default node's
score. -/
theorem C10_year_zero_make_never_emitted (covered weak : List Lookup.CsvRow)
    (now m : String)
    (hc : ∀ r ∈ covered, Lookup.lookup_row_accepted Lookup.MIN_COVERED_SCORE r = true →
      Lookup.normalize_make_key r.make = m → Lookup.safe_int r.year = 0)
    (hw : ∀ r ∈ weak, Lookup.lookup_row_accepted Lookup.MIN_WEAK_SCORE r = true →
      Lookup.normalize_make_key r.make = m → Lookup.safe_int r.year = 0) :
    m ∉ (Lookup.lookup_main covered weak now).by_make.map Prod.fst := by
  intro hmem
  rw [lookup_main_by_make] at hmem
  have h1 := mem_keys_build_by_make _ m hmem
  rcases mem_year_keys_consume_list Lookup.MIN_WEAK_SCORE weak _ m h1 with h2 | h2
  · rcases mem_year_keys_consume_list Lookup.MIN_COVERED_SCORE covered _ m h2 with h3 | h3
    · simp at h3
    · obtain ⟨r, hr, hracc, hrm, hry⟩ := h3
      exact hry (hc r hr hracc hrm)
  · obtain ⟨r, hr, hracc, hrm, hry⟩ := h2
    exact hry (hw r hr hracc hrm)

/-- A concrete covered row with unknown (zero) year and a high score. -/
def year_zero_row : Lookup.CsvRow :=
  { make := "Testmake",
    year := "0",
    fleet_estimate := "100",
    score := "0.9",
    best_icon_path := "gfx/vehicle_icons/x/y.png",
    best_icon_label := "X" }

/-- Witness for C10: the high-scoring year-0-only make testmake is absent
from the emitted by_make. -/
theorem C10_year_zero_make_never_emitted_witness :
    "testmake" ∉
      (Lookup.lookup_main [year_zero_row] [] "2026-10-12T00:00:00+00:00").by_make.map Prod.fst :=
  C10_year_zero_make_never_emitted [year_zero_row] [] "2026-10-12T00:00:00+00:00" "testmake"
    (by decide) (by decide)
